import Mathlib

/-!
Verification of the Stethoscope AI backend (src/backend/main.py, v5.0).

The file gives a shallow embedding of the request pipeline of the single
source file: base64 decoding, UTF-8 decoding, JSON parsing, the prompt
construction and synthesis call, the Firestore history store, and the two
HTTP endpoints (POST /api/v1/analyze and GET /api/v1/history).

External services (the Gemini model, Google token verification, Firestore)
are modelled as oracles or as explicit pure state; Python library
primitives (base64.b64decode, bytes.decode, json.loads, json.dumps,
str.splitlines, str.replace) are re-implemented faithfully on the inputs
the service uses.  Exception message texts of library errors are kept
where Python fixes them and simplified where they are incidental.
-/

/-- Json models a Python value produced by json.loads: None, bool, a
numeric literal (kept as its source lexeme), str, list and dict (an
association list in insertion order, keys unique). -/
inductive Json where
  | null : Json
  | bool (b : Bool) : Json
  | num (lexeme : String) : Json
  | str (s : String) : Json
  | arr (items : List Json) : Json
  | obj (fields : List (String × Json)) : Json

/-- PyErr models the Python exceptions that the source can raise and
catch, each carrying the text that str(e) yields. -/
inductive PyErr where
  | valueError (msg : String)
  | binasciiError (msg : String)
  | unicodeDecodeError (msg : String)
  | jsonDecodeError (msg : String)
  | attributeError (msg : String)
  | indexError (msg : String)
  | connectionError (msg : String)

/-- PyErr.text is the Python str(e) of the exception: for these exception
classes it is the message the exception was constructed with. -/
def PyErr.text : PyErr → String
  | .valueError m => m
  | .binasciiError m => m
  | .unicodeDecodeError m => m
  | .jsonDecodeError m => m
  | .attributeError m => m
  | .indexError m => m
  | .connectionError m => m

/-- isB64Char tests membership in the standard base64 alphabet. -/
def isB64Char (c : Char) : Bool :=
  (65 ≤ c.toNat && c.toNat ≤ 90) || (97 ≤ c.toNat && c.toNat ≤ 122) ||
  (48 ≤ c.toNat && c.toNat ≤ 57) || c == '+' || c == '/'

/-- b64val gives the 6-bit value of a base64 alphabet character. -/
def b64val (c : Char) : Nat :=
  if 65 ≤ c.toNat && c.toNat ≤ 90 then c.toNat - 65
  else if 97 ≤ c.toNat && c.toNat ≤ 122 then c.toNat - 71
  else if 48 ≤ c.toNat && c.toNat ≤ 57 then c.toNat + 4
  else if c == '+' then 62
  else 63

/-- b64decodeLoop models the scanning loop of the lenient a2b_base64 of
binascii: quadPos counts the characters of the current group, leftBits
holds the pending bits of the previous character, pads the pad
characters of the current pad run.  A character outside the alphabet is
discarded; a pad character is discarded while the current group has
fewer than two characters, and once a pad run completes a group of four
decoding stops successfully, ignoring the rest; a data character resets
the pad run and emits a byte when it is the second, third or fourth of
its group.  At the end of the input a group of one remaining character
is the cannot-be-1-more error (the count it reports being the data
characters consumed), a group of two or three is incorrect padding. -/
def b64decodeLoop : List Char → Nat → Nat → Nat → List Nat → Except PyErr (List Nat)
  | [], quadPos, _, _, acc =>
    if quadPos == 0 then .ok acc.reverse
    else if quadPos == 1 then
      .error (.binasciiError ("Invalid base64-encoded string: number of data characters (" ++
        toString (acc.length / 3 * 4 + 1) ++ ") cannot be 1 more than a multiple of 4"))
    else .error (.binasciiError "Incorrect padding")
  | c :: rest, quadPos, leftBits, pads, acc =>
    if c == '=' then
      if 2 ≤ quadPos then
        if 4 ≤ quadPos + (pads + 1) then .ok acc.reverse
        else b64decodeLoop rest quadPos leftBits (pads + 1) acc
      else b64decodeLoop rest quadPos leftBits pads acc
    else if isB64Char c then
      let v := b64val c
      if quadPos == 0 then b64decodeLoop rest 1 v 0 acc
      else if quadPos == 1 then b64decodeLoop rest 2 (v % 16) 0 ((leftBits * 4 + v / 16) :: acc)
      else if quadPos == 2 then b64decodeLoop rest 3 (v % 4) 0 ((leftBits * 16 + v / 4) :: acc)
      else b64decodeLoop rest 0 0 0 ((leftBits * 64 + v) :: acc)
    else b64decodeLoop rest quadPos leftBits pads acc

/-- b64decode models base64.b64decode applied to a Python str (as the
source does at line 112): the text must be ASCII, then the bytes pass
through the lenient a2b_base64 scan of b64decodeLoop; on failure
binascii.Error (a ValueError) is raised. -/
def b64decode (s : String) : Except PyErr (List Nat) :=
  if s.data.any (fun c => 128 ≤ c.toNat) then
    .error (.valueError "string argument should contain only ASCII characters")
  else b64decodeLoop s.data 0 0 0 []

/-- utf8DecodeAux decodes a UTF-8 byte list into characters, rejecting
invalid start bytes, truncated sequences, overlong encodings, surrogates
and code points beyond U+10FFFF, as bytes.decode with strict errors does.
The fuel argument only bounds recursion; the wrapper supplies enough. -/
def utf8DecodeAux : Nat → List Nat → List Char → Except PyErr (List Char)
  | 0, _, acc => .ok acc.reverse
  | _ + 1, [], acc => .ok acc.reverse
  | fuel + 1, b :: rest, acc =>
    if b < 128 then utf8DecodeAux fuel rest (Char.ofNat b :: acc)
    else if b < 194 then .error (.unicodeDecodeError "utf-8 codec cannot decode byte: invalid start byte")
    else if b < 224 then
      match rest with
      | [] => .error (.unicodeDecodeError "utf-8 codec cannot decode byte: unexpected end of data")
      | b2 :: rest2 =>
        if 128 ≤ b2 && b2 < 192 then
          utf8DecodeAux fuel rest2 (Char.ofNat ((b - 192) * 64 + (b2 - 128)) :: acc)
        else .error (.unicodeDecodeError "utf-8 codec cannot decode byte: invalid continuation byte")
    else if b < 240 then
      match rest with
      | [] => .error (.unicodeDecodeError "utf-8 codec cannot decode byte: unexpected end of data")
      | b2 :: rest2 =>
        if (if b == 224 then 160 ≤ b2 && b2 < 192
            else if b == 237 then 128 ≤ b2 && b2 < 160
            else 128 ≤ b2 && b2 < 192) then
          match rest2 with
          | [] => .error (.unicodeDecodeError "utf-8 codec cannot decode byte: unexpected end of data")
          | b3 :: rest3 =>
            if 128 ≤ b3 && b3 < 192 then
              utf8DecodeAux fuel rest3 (Char.ofNat ((b - 224) * 4096 + (b2 - 128) * 64 + (b3 - 128)) :: acc)
            else .error (.unicodeDecodeError "utf-8 codec cannot decode byte: invalid continuation byte")
        else .error (.unicodeDecodeError "utf-8 codec cannot decode byte: invalid continuation byte")
    else if b < 245 then
      match rest with
      | [] => .error (.unicodeDecodeError "utf-8 codec cannot decode byte: unexpected end of data")
      | b2 :: rest2 =>
        if (if b == 240 then 144 ≤ b2 && b2 < 192
            else if b == 244 then 128 ≤ b2 && b2 < 144
            else 128 ≤ b2 && b2 < 192) then
          match rest2 with
          | [] => .error (.unicodeDecodeError "utf-8 codec cannot decode byte: unexpected end of data")
          | b3 :: rest3 =>
            if 128 ≤ b3 && b3 < 192 then
              match rest3 with
              | [] => .error (.unicodeDecodeError "utf-8 codec cannot decode byte: unexpected end of data")
              | b4 :: rest4 =>
                if 128 ≤ b4 && b4 < 192 then
                  utf8DecodeAux fuel rest4 (Char.ofNat ((b - 240) * 262144 + (b2 - 128) * 4096 + (b3 - 128) * 64 + (b4 - 128)) :: acc)
                else .error (.unicodeDecodeError "utf-8 codec cannot decode byte: invalid continuation byte")
            else .error (.unicodeDecodeError "utf-8 codec cannot decode byte: invalid continuation byte")
        else .error (.unicodeDecodeError "utf-8 codec cannot decode byte: invalid continuation byte")
    else .error (.unicodeDecodeError "utf-8 codec cannot decode byte: invalid start byte")

/-- utf8Decode models decoded_bytes.decode with the utf-8 codec at source
line 113. -/
def utf8Decode (bs : List Nat) : Except PyErr String :=
  (utf8DecodeAux (bs.length + 1) bs []).map (fun cs => String.mk cs)

/-- isJsonWs tests the whitespace characters the json module skips. -/
def isJsonWs (c : Char) : Bool :=
  c == ' ' || c == '\t' || c == '\n' || c == '\r'

/-- skipWs drops leading JSON whitespace, tracking the character index. -/
def skipWs : List Char → Nat → List Char × Nat
  | [], p => ([], p)
  | c :: cs, p => if isJsonWs c then skipWs cs (p + 1) else (c :: cs, p)

/-- hexVal gives the value of a hexadecimal digit, none otherwise. -/
def hexVal (c : Char) : Option Nat :=
  if 48 ≤ c.toNat && c.toNat ≤ 57 then some (c.toNat - 48)
  else if 97 ≤ c.toNat && c.toNat ≤ 102 then some (c.toNat - 87)
  else if 65 ≤ c.toNat && c.toNat ≤ 70 then some (c.toNat - 55)
  else none

/-- pHex4 reads four hexadecimal digits. -/
def pHex4 : List Char → Option (Nat × List Char)
  | a :: b :: c :: d :: rest =>
    match hexVal a, hexVal b, hexVal c, hexVal d with
    | some x, some y, some z, some w => some (((x * 16 + y) * 16 + z) * 16 + w, rest)
    | _, _, _, _ => none
  | _ => none

/-- pStringAux scans a JSON string body after the opening quote, handling
the escape sequences of the json module, pairing UTF-16 surrogate escape
pairs, and rejecting unescaped control characters (strict mode).  A lone
surrogate escape, which Python would keep in the str, falls outside the
Lean character range and is modelled as U+0000. -/
def pStringAux : Nat → List Char → Nat → Nat → List Char → Except (String × Nat) (String × List Char × Nat)
  | 0, _, strt, _, _ => .error ("Unterminated string starting at", strt)
  | _ + 1, [], strt, _, _ => .error ("Unterminated string starting at", strt)
  | fuel + 1, c :: cs, strt, pos, acc =>
    if c == '"' then .ok (String.mk acc.reverse, cs, pos + 1)
    else if c == '\\' then
      match cs with
      | [] => .error ("Unterminated string starting at", strt)
      | e :: cs2 =>
        if e == '"' then pStringAux fuel cs2 strt (pos + 2) ('"' :: acc)
        else if e == '\\' then pStringAux fuel cs2 strt (pos + 2) ('\\' :: acc)
        else if e == '/' then pStringAux fuel cs2 strt (pos + 2) ('/' :: acc)
        else if e == 'b' then pStringAux fuel cs2 strt (pos + 2) (Char.ofNat 8 :: acc)
        else if e == 'f' then pStringAux fuel cs2 strt (pos + 2) (Char.ofNat 12 :: acc)
        else if e == 'n' then pStringAux fuel cs2 strt (pos + 2) (Char.ofNat 10 :: acc)
        else if e == 'r' then pStringAux fuel cs2 strt (pos + 2) (Char.ofNat 13 :: acc)
        else if e == 't' then pStringAux fuel cs2 strt (pos + 2) (Char.ofNat 9 :: acc)
        else if e == 'u' then
          match pHex4 cs2 with
          | none => .error ("Invalid \\uXXXX escape", pos + 2)
          | some (v1, cs3) =>
            if 55296 ≤ v1 && v1 ≤ 56319 then
              match cs3 with
              | u1 :: u2 :: cs4 =>
                if u1 == '\\' && u2 == 'u' then
                  match pHex4 cs4 with
                  | some (v2, cs5) =>
                    if 56320 ≤ v2 && v2 ≤ 57343 then
                      pStringAux fuel cs5 strt (pos + 12)
                        (Char.ofNat (65536 + (v1 - 55296) * 1024 + (v2 - 56320)) :: acc)
                    else pStringAux fuel cs3 strt (pos + 6) (Char.ofNat v1 :: acc)
                  | none => pStringAux fuel cs3 strt (pos + 6) (Char.ofNat v1 :: acc)
                else pStringAux fuel cs3 strt (pos + 6) (Char.ofNat v1 :: acc)
              | _ => pStringAux fuel cs3 strt (pos + 6) (Char.ofNat v1 :: acc)
            else pStringAux fuel cs3 strt (pos + 6) (Char.ofNat v1 :: acc)
        else .error ("Invalid \\escape", pos + 1)
    else if c.toNat < 32 then .error ("Invalid control character at", pos)
    else pStringAux fuel cs strt (pos + 1) (c :: acc)

/-- isDigit tests an ASCII decimal digit. -/
def isDigitCh (c : Char) : Bool := 48 ≤ c.toNat && c.toNat ≤ 57

/-- pNumber matches the number regular expression of the json module with
maximal munch, keeping the matched lexeme. -/
def pNumber (cs : List Char) (pos : Nat) : Except (String × Nat) (Json × List Char × Nat) :=
  let (sign, csA) := match cs with
    | '-' :: rest => (['-'], rest)
    | _ => ([], cs)
  match csA with
  | [] => .error ("Expecting value", pos)
  | d :: csB =>
    if !(isDigitCh d) then .error ("Expecting value", pos)
    else
      let (ipart, csC) :=
        if d == '0' then ([d], csB)
        else (d :: csB.takeWhile isDigitCh, csB.dropWhile isDigitCh)
      let (fpart, csD) := match csC with
        | '.' :: f1 :: rest =>
          if isDigitCh f1 then
            ('.' :: f1 :: rest.takeWhile isDigitCh, rest.dropWhile isDigitCh)
          else ([], csC)
        | _ => ([], csC)
      let (epart, csE) := match csD with
        | e :: '+' :: e1 :: rest =>
          if (e == 'e' || e == 'E') && isDigitCh e1 then
            (e :: '+' :: e1 :: rest.takeWhile isDigitCh, rest.dropWhile isDigitCh)
          else ([], csD)
        | e :: '-' :: e1 :: rest =>
          if (e == 'e' || e == 'E') && isDigitCh e1 then
            (e :: '-' :: e1 :: rest.takeWhile isDigitCh, rest.dropWhile isDigitCh)
          else ([], csD)
        | e :: e1 :: rest =>
          if (e == 'e' || e == 'E') && isDigitCh e1 then
            (e :: e1 :: rest.takeWhile isDigitCh, rest.dropWhile isDigitCh)
          else ([], csD)
        | _ => ([], csD)
      let lexeme := sign ++ ipart ++ fpart ++ epart
      .ok (Json.num (String.mk lexeme), csE, pos + lexeme.length)

/-- objInsert models dict insertion while a JSON object literal is read:
a repeated key keeps its first position and takes the last value. -/
def objInsert : List (String × Json) → String → Json → List (String × Json)
  | [], k, v => [(k, v)]
  | (k0, v0) :: rest, k, v =>
    if k0 == k then (k0, v) :: rest else (k0, v0) :: objInsert rest k v

mutual

/-- pVal parses one JSON value after skipping whitespace, as the scanner
of the json module does: string, object, array, the literals null, true,
false, a number, or the extended constants NaN, Infinity, -Infinity. -/
def pVal : Nat → List Char → Nat → Except (String × Nat) (Json × List Char × Nat)
  | 0, _, pos => .error ("Expecting value", pos)
  | fuel + 1, cs, pos =>
    let (cs1, p1) := skipWs cs pos
    match cs1 with
    | [] => .error ("Expecting value", p1)
    | c :: cs2 =>
      if c == '"' then
        match pStringAux (cs2.length + 1) cs2 p1 (p1 + 1) [] with
        | .error e => .error e
        | .ok (s, rest, p2) => .ok (Json.str s, rest, p2)
      else if c.toNat == 123 then pObjMembers fuel cs2 (p1 + 1) []
      else if c == '[' then pArrItems fuel cs2 (p1 + 1) []
      else if ("null".data).isPrefixOf cs1 then .ok (Json.null, cs1.drop 4, p1 + 4)
      else if ("true".data).isPrefixOf cs1 then .ok (Json.bool true, cs1.drop 4, p1 + 4)
      else if ("false".data).isPrefixOf cs1 then .ok (Json.bool false, cs1.drop 5, p1 + 5)
      else if c == '-' || isDigitCh c then
        match pNumber cs1 p1 with
        | .error _ =>
          if ("-Infinity".data).isPrefixOf cs1 then .ok (Json.num "-Infinity", cs1.drop 9, p1 + 9)
          else .error ("Expecting value", p1)
        | .ok r => .ok r
      else if ("NaN".data).isPrefixOf cs1 then .ok (Json.num "NaN", cs1.drop 3, p1 + 3)
      else if ("Infinity".data).isPrefixOf cs1 then .ok (Json.num "Infinity", cs1.drop 8, p1 + 8)
      else .error ("Expecting value", p1)

/-- pObjMembers parses the members of an object literal after the opening
brace, inserting each pair into the accumulated dict. -/
def pObjMembers : Nat → List Char → Nat → List (String × Json) → Except (String × Nat) (Json × List Char × Nat)
  | 0, _, pos, _ => .error ("Expecting value", pos)
  | fuel + 1, cs, pos, acc =>
    let (cs1, p1) := skipWs cs pos
    match cs1 with
    | [] =>
      if acc.isEmpty then .error ("Expecting property name enclosed in double quotes", p1)
      else .error ("Expecting \x27,\x27 delimiter", p1)
    | c :: cs2 =>
      if c.toNat == 125 && acc.isEmpty then .ok (Json.obj [], cs2, p1 + 1)
      else if c == '"' then
        match pStringAux (cs2.length + 1) cs2 p1 (p1 + 1) [] with
        | .error e => .error e
        | .ok (k, rest, p2) =>
          let (rest1, p3) := skipWs rest p2
          match rest1 with
          | ':' :: rest2 =>
            match pVal fuel rest2 (p3 + 1) with
            | .error e => .error e
            | .ok (v, rest3, p4) =>
              let acc1 := objInsert acc k v
              let (rest4, p5) := skipWs rest3 p4
              match rest4 with
              | ',' :: rest5 => pObjMembers fuel rest5 (p5 + 1) acc1
              | d :: rest5 =>
                if d.toNat == 125 then .ok (Json.obj acc1, rest5, p5 + 1)
                else .error ("Expecting \x27,\x27 delimiter", p5)
              | [] => .error ("Expecting \x27,\x27 delimiter", p5)
          | _ => .error ("Expecting \x27:\x27 delimiter", p3)
      else .error ("Expecting property name enclosed in double quotes", p1)

/-- pArrItems parses the items of an array literal after the opening
bracket. -/
def pArrItems : Nat → List Char → Nat → List Json → Except (String × Nat) (Json × List Char × Nat)
  | 0, _, pos, _ => .error ("Expecting value", pos)
  | fuel + 1, cs, pos, acc =>
    let (cs1, p1) := skipWs cs pos
    match cs1 with
    | c :: cs2 =>
      if c == ']' && acc.isEmpty then .ok (Json.arr [], cs2, p1 + 1)
      else
        match pVal fuel cs1 p1 with
        | .error e => .error e
        | .ok (v, rest, p2) =>
          let (rest1, p3) := skipWs rest p2
          match rest1 with
          | ',' :: rest2 => pArrItems fuel rest2 (p3 + 1) (acc ++ [v])
          | d :: rest2 =>
            if d == ']' then .ok (Json.arr (acc ++ [v]), rest2, p3 + 1)
            else .error ("Expecting \x27,\x27 delimiter", p3)
          | [] => .error ("Expecting \x27,\x27 delimiter", p3)
    | [] => .error ("Expecting value", p1)

end

/-- jsonErrMsg renders a json module error with the line, column and
character position format of JSONDecodeError. -/
def jsonErrMsg (kind : String) (full : List Char) (pos : Nat) : PyErr :=
  let pre := full.take pos
  let line := 1 + (pre.filter (fun c => c == '\n')).length
  let col := (pre.reverse.takeWhile (fun c => c != '\n')).length + 1
  .jsonDecodeError (kind ++ ": line " ++ toString line ++ " column " ++ toString col ++
    " (char " ++ toString pos ++ ")")

/-- loads models json.loads at source line 113: parse one value and
require only whitespace after it. -/
def loads (s : String) : Except PyErr Json :=
  match pVal (2 * s.data.length + 4) s.data 0 with
  | .error (k, p) => .error (jsonErrMsg k s.data p)
  | .ok (j, rest, p) =>
    let (rest2, p2) := skipWs rest p
    if rest2.isEmpty then .ok j
    else .error (jsonErrMsg "Extra data" s.data p2)

/-- spacesStr builds an indentation run. -/
def spacesStr (n : Nat) : String := String.mk (List.replicate n ' ')

/-- hex4lower renders a code unit as four lowercase hexadecimal digits. -/
def hex4lower (n : Nat) : String :=
  let dig := fun (k : Nat) => if k < 10 then Char.ofNat (48 + k) else Char.ofNat (87 + k)
  String.mk [dig (n / 4096 % 16), dig (n / 256 % 16), dig (n / 16 % 16), dig (n % 16)]

/-- escJsonChar escapes one character as json.dumps with ensure_ascii
does: the two-character escapes, \u00xx for other control characters,
and \uxxxx (a surrogate pair beyond U+FFFF) for every non-ASCII one. -/
def escJsonChar (c : Char) : String :=
  if c == '"' then "\\\""
  else if c == '\\' then "\\\\"
  else if c.toNat == 10 then "\\n"
  else if c.toNat == 13 then "\\r"
  else if c.toNat == 9 then "\\t"
  else if c.toNat == 8 then "\\b"
  else if c.toNat == 12 then "\\f"
  else if c.toNat < 32 then "\\u" ++ hex4lower c.toNat
  else if c.toNat < 127 then String.mk [c]
  else if c.toNat < 65536 then "\\u" ++ hex4lower c.toNat
  else
    "\\u" ++ hex4lower (55296 + (c.toNat - 65536) / 1024) ++
    "\\u" ++ hex4lower (56320 + (c.toNat - 65536) % 1024)

/-- quoteJson renders a string literal as json.dumps does. -/
def quoteJson (s : String) : String :=
  "\"" ++ String.join (s.data.map escJsonChar) ++ "\""

mutual

/-- dumpsVal renders a value as json.dumps with indent equal to 2 does,
cur being the current indentation width. -/
def dumpsVal (cur : Nat) : Json → String
  | .null => "null"
  | .bool b => if b then "true" else "false"
  | .num l => l
  | .str s => quoteJson s
  | .arr [] => "[]"
  | .arr (x :: xs) =>
    "[\n" ++ spacesStr (cur + 2) ++ dumpsVal (cur + 2) x ++ dumpsArr (cur + 2) xs ++
    "\n" ++ spacesStr cur ++ "]"
  | .obj [] => "\x7b\x7d"
  | .obj ((k, v) :: xs) =>
    "\x7b\n" ++ spacesStr (cur + 2) ++ quoteJson k ++ ": " ++ dumpsVal (cur + 2) v ++
    dumpsObj (cur + 2) xs ++ "\n" ++ spacesStr cur ++ "\x7d"

/-- dumpsArr renders the remaining array items. -/
def dumpsArr (cur : Nat) : List Json → String
  | [] => ""
  | x :: xs => ",\n" ++ spacesStr cur ++ dumpsVal cur x ++ dumpsArr cur xs

/-- dumpsObj renders the remaining object members. -/
def dumpsObj (cur : Nat) : List (String × Json) → String
  | [] => ""
  | (k, v) :: xs =>
    ",\n" ++ spacesStr cur ++ quoteJson k ++ ": " ++ dumpsVal cur v ++ dumpsObj cur xs

end

/-- dumpsIndent2 models json.dumps(data, indent=2) at source line 88.  A
float lexeme is reproduced verbatim rather than through float repr. -/
def dumpsIndent2 (d : Json) : String := dumpsVal 0 d

/-- isLineBound lists the line boundary characters of str.splitlines. -/
def isLineBound (c : Char) : Bool :=
  c.toNat == 10 || c.toNat == 13 || c.toNat == 11 || c.toNat == 12 ||
  c.toNat == 28 || c.toNat == 29 || c.toNat == 30 || c.toNat == 133 ||
  c.toNat == 8232 || c.toNat == 8233

/-- splitlinesAux scans characters, closing a line at each boundary and
treating a carriage return followed by a newline as one boundary. -/
def splitlinesAux : Nat → List Char → List Char → List String → List String
  | 0, _, cur, acc =>
    if cur.isEmpty then acc.reverse else (String.mk cur.reverse :: acc).reverse
  | _ + 1, [], cur, acc =>
    if cur.isEmpty then acc.reverse else (String.mk cur.reverse :: acc).reverse
  | fuel + 1, c :: cs, cur, acc =>
    if c.toNat == 13 then
      match cs with
      | n :: cs2 =>
        if n.toNat == 10 then splitlinesAux fuel cs2 [] (String.mk cur.reverse :: acc)
        else splitlinesAux fuel cs [] (String.mk cur.reverse :: acc)
      | [] => splitlinesAux fuel [] [] (String.mk cur.reverse :: acc)
    else if isLineBound c then splitlinesAux fuel cs [] (String.mk cur.reverse :: acc)
    else splitlinesAux fuel cs (c :: cur) acc

/-- splitlines models str.splitlines as used at source line 103. -/
def splitlines (s : String) : List String :=
  splitlinesAux (s.data.length + 1) s.data [] []

/-- pyReplaceAux scans left to right replacing each non-overlapping
occurrence of a nonempty pattern. -/
def pyReplaceAux : Nat → List Char → List Char → List Char → List Char → List Char
  | 0, cs, _, _, acc => acc.reverse ++ cs
  | _ + 1, [], _, _, acc => acc.reverse
  | fuel + 1, c :: cs2, old, new, acc =>
    if old.isPrefixOf (c :: cs2) then
      pyReplaceAux fuel ((c :: cs2).drop old.length) old new (new.reverse ++ acc)
    else pyReplaceAux fuel cs2 old new (c :: acc)

/-- pyReplace models str.replace(old, new) with every occurrence
replaced, as used at source line 103; an empty pattern inserts the
replacement at every gap as Python does. -/
def pyReplace (s old new : String) : String :=
  if old.isEmpty then
    new ++ String.join (s.data.map (fun c => String.mk [c] ++ new))
  else String.mk (pyReplaceAux (s.data.length + 1) s.data old.data new.data [])

/-- promptPre is the text of the f-string at source lines 82 to 88 up
to the interpolation of the serialized server data. -/
def promptPre : String :=
  "\n" ++
  "    You are \"Stethoscope AI\", an expert Linux System Administrator and Security Analyst.\n" ++
  "    Your task is to analyze the following server data and provide a comprehensive health and security report in Markdown format.\n" ++
  "\n" ++
  "    RAW SERVER DATA:\n" ++
  "    ```json\n" ++
  "    "

/-- promptPost is the text of the f-string from the interpolation to
the closing quotes at source line 99. -/
def promptPost : String :=
  "\n" ++
  "    ```\n" ++
  "\n" ++
  "    INSTRUCTIONS FOR YOUR RESPONSE:\n" ++
  "    1.  Start with a \"## Executive Summary\".\n" ++
  "    2.  Create a \"## 🛡️ Security Analysis\" section. Calculate a \"Security Score\" out of 100. List security findings.\n" ++
  "    3.  **NEW:** Create a \"## 📦 Package Security\" section. Analyze the `package_updates` list. If it contains critical packages like `openssh-server`, `openssl`, `kernel`, etc., list them in a Markdown table.\n" ++
  "    4.  Create a \"## 🩺 Performance Analysis\" section for performance issues.\n" ++
  "    5.  For every issue, use 🔴 (Critical) or 🟡 (Warning) in a level 3 heading (`###`).\n" ++
  "    6.  Under each issue, provide **Root Cause Analysis** and **Solution** sub-sections.\n" ++
  "    7.  If no issues, the report should be a single \"## ✅ All Systems Normal\" section.\n" ++
  "    "


/-- promptOf renders the full prompt of get_ai_synthesis (source lines
82 to 99) for the given server data. -/
def promptOf (d : Json) : String := promptPre ++ dumpsIndent2 d ++ promptPost

/-- getAiSynthesis models get_ai_synthesis at source lines 100 to 106.
The oracle gen stands for model.generate_content: ok carries the text of
the response, error the str of whatever exception the call raised.  The
except clause wraps any exception of the try body, including the
IndexError raised when the response text has no first line, into a
ConnectionError.  On success the pair of the full text and the summary,
the first line with every occurrence of a level-2 heading marker
removed, is returned. -/
def getAiSynthesis (gen : String → Except String String) (data : Json) : Except PyErr (String × String) :=
  match gen (promptOf data) with
  | .error e => .error (.connectionError ("Could not get analysis from AI service: " ++ e))
  | .ok text =>
    match splitlines text with
    | [] => .error (.connectionError ("Could not get analysis from AI service: list index out of range"))
    | line0 :: _ => .ok (text, pyReplace line0 "## " "")

/-- Scan models one Firestore document under analyses/user/scans, as the
handler writes it at source lines 118 to 124.  Document identifiers and
server timestamps are modelled as counters drawn from the store. -/
structure Scan where
  docId : Nat
  timestamp : Nat
  report : String
  summary : String
  distro : Json

/-- Store models the Firestore state: the scans of each user, the next
fresh document identifier, and the server clock. -/
structure Store where
  scans : List (String × List Scan)
  nextId : Nat
  clock : Nat

/-- emptyStore is a store with no documents. -/
def emptyStore : Store := ⟨[], 0, 0⟩

/-- scansOf reads the scan documents of one user. -/
def scansOf (st : Store) (uid : String) : List Scan :=
  match st.scans.lookup uid with
  | some l => l
  | none => []

/-- setScansA replaces the scan list of one user in the association
list. -/
def setScansA : List (String × List Scan) → String → List Scan → List (String × List Scan)
  | [], uid, l => [(uid, l)]
  | (u, l0) :: rest, uid, l =>
    if u == uid then (u, l) :: rest else (u, l0) :: setScansA rest uid l

/-- setScans replaces the scan list of one user in the store. -/
def setScans (st : Store) (uid : String) (l : List Scan) : Store :=
  { st with scans := setScansA st.scans uid l }

/-- scanGE orders scans by timestamp descending, the direction of the
order_by clauses at source lines 127 and 139. -/
def scanGE (a b : Scan) : Prop := b.timestamp ≤ a.timestamp

instance : DecidableRel scanGE := fun _ _ => Nat.decLe _ _

instance : IsTotal Scan scanGE := ⟨fun a b => le_total b.timestamp a.timestamp⟩

instance : IsTrans Scan scanGE := ⟨fun _ _ _ hab hbc => le_trans hbc hab⟩

/-- sortByTsDesc models a Firestore query ordered by timestamp
descending. -/
def sortByTsDesc (l : List Scan) : List Scan := List.insertionSort scanGE l

/-- jsonTypeName gives the Python type name of a decoded JSON value,
used in the AttributeError message of a .get call on a non-dict. -/
def jsonTypeName : Json → String
  | .null => "NoneType"
  | .bool _ => "bool"
  | .num l =>
    if l.data.any (fun c => c == '.' || c == 'e' || c == 'E' || c == 'N' || c == 'I')
    then "float" else "int"
  | .str _ => "str"
  | .arr _ => "list"
  | .obj _ => "dict"

/-- dictGet models value.get(key, default): dict lookup with a default,
an AttributeError on any non-dict value. -/
def dictGet (j : Json) (k : String) (dflt : Json) : Except PyErr Json :=
  match j with
  | .obj fields => .ok ((fields.lookup k).getD dflt)
  | _ => .error (.attributeError ("\x27" ++ jsonTypeName j ++ "\x27 object has no attribute \x27get\x27"))

/-- distroOf models server_data.get(os_info, empty).get(distro, Unknown)
at source line 123. -/
def distroOf (sd : Json) : Except PyErr Json :=
  match dictGet sd "os_info" (Json.obj []) with
  | .error e => .error e
  | .ok osi => dictGet osi "distro" (Json.str "Unknown")

/-- Resp models the HTTP outcome of an endpoint: a 200 JSON body, or an
HTTPException with a status code and a detail message. -/
inductive Resp where
  | ok (body : Json)
  | err (status : Nat) (detail : String)

/-- Resp.status is the HTTP status code of the response. -/
def Resp.status : Resp → Nat
  | .ok _ => 200
  | .err s _ => s

/-- Resp.detail is the detail message of an error response. -/
def Resp.detail : Resp → String
  | .ok _ => ""
  | .err _ d => d

/-- getCurrentUser models the dependency at source lines 63 to 73.  The
oracle verify stands for id_token.verify_oauth2_token composed with the
sub lookup: ok carries the sub claim, error the ValueError raised on a
token that fails verification.  FastAPI resolves this dependency before
the endpoint body runs. -/
def getCurrentUser (verify : String → Except String String) (token : String) : Except Resp String :=
  match verify token with
  | .ok sub => .ok sub
  | .error _ => .error (.err 401 "Invalid authentication credentials")

/-- addScan models doc_ref.set at source lines 118 to 124: a fresh
document with the server timestamp, the report, the summary and the
distro value is added for the user, and the id and clock counters
advance. -/
def addScan (st : Store) (uid : String) (report summary : String) (distro : Json) : Store :=
  let sc : Scan := ⟨st.nextId, st.clock, report, summary, distro⟩
  { setScans st uid (scansOf st uid ++ [sc]) with nextId := st.nextId + 1, clock := st.clock + 1 }

/-- trimScans models the cleanup at source lines 126 to 130: query the
ten most recent scans and delete every one of them after the first
five. -/
def trimScans (st : Store) (uid : String) : Store :=
  let q := (sortByTsDesc (scansOf st uid)).take 10
  if q.length > 5 then
    let delIds := (q.drop 5).map Scan.docId
    setScans st uid ((scansOf st uid).filter (fun s => !(delIds.contains s.docId)))
  else st

/-- AnalyzeOut collects the observable effects of one analyze request:
the response, the resulting store, and the prompts of the outbound
generative model calls made while handling it, in order. -/
structure AnalyzeOut where
  resp : Resp
  store : Store
  prompts : List String

/-- decodeParse models source lines 112 and 113 as one pipeline: base64
decode the payload, decode the bytes as UTF-8, parse the text as JSON;
the first exception raised propagates. -/
def decodeParse (payload : String) : Except PyErr Json :=
  match b64decode payload with
  | .error e => .error e
  | .ok bs =>
    match utf8Decode bs with
    | .error e => .error e
    | .ok txt => loads txt

/-- analyzeServer models the POST /api/v1/analyze endpoint at source
lines 109 to 134.  The try body decodes the base64 payload, decodes the
bytes as UTF-8, parses the JSON, calls get_ai_synthesis, reads the
distro field for the record, writes the record and trims the history;
any exception of the body is caught and re-raised as an HTTPException
with status 500 whose detail appends str(e) to a fixed text. -/
def analyzeServer (verify gen : String → Except String String) (st : Store)
    (token : String) (data : String) : AnalyzeOut :=
  match getCurrentUser verify token with
  | .error r => ⟨r, st, []⟩
  | .ok uid =>
    match decodeParse data with
    | .error e => ⟨.err 500 ("An unexpected error occurred: " ++ e.text), st, []⟩
    | .ok sd =>
          match getAiSynthesis gen sd with
          | .error e => ⟨.err 500 ("An unexpected error occurred: " ++ e.text), st, [promptOf sd]⟩
          | .ok (finalReport, summary) =>
            match distroOf sd with
            | .error e => ⟨.err 500 ("An unexpected error occurred: " ++ e.text), st, [promptOf sd]⟩
            | .ok distro =>
              let st1 := addScan st uid finalReport summary distro
              let st2 := trimScans st1 uid
              ⟨.ok (Json.obj [("status", Json.str "success"), ("report", Json.str finalReport)]), st2, [promptOf sd]⟩

/-- isoformat models datetime isoformat on the modelled server clock. -/
def isoformat (n : Nat) : String := toString n

/-- docIdStr models the Firestore document identifier as text. -/
def docIdStr (n : Nat) : String := toString n

/-- historyDocs models the query of get_history at source line 139: the
scans of the user ordered by timestamp descending, limited to five. -/
def historyDocs (st : Store) (uid : String) : List Scan :=
  (sortByTsDesc (scansOf st uid)).take 5

/-- scanEntry models the dict built for each document at source lines
144 to 149; the stored documents always carry a summary, so the get
default never applies. -/
def scanEntry (s : Scan) : Json :=
  Json.obj [("id", Json.str (docIdStr s.docId)),
            ("timestamp", Json.str (isoformat s.timestamp)),
            ("report", Json.str s.report),
            ("summary", Json.str s.summary)]

/-- getHistory models the GET /api/v1/history endpoint at source lines
136 to 150. -/
def getHistory (verify : String → Except String String) (st : Store) (token : String) : Resp :=
  match getCurrentUser verify token with
  | .error r => r
  | .ok uid => .ok (Json.arr ((historyDocs st uid).map scanEntry))

/-- verifyAlways is a concrete verification oracle accepting every token
with a fixed subject, used to witness runs of the endpoints. -/
def verifyAlways : String → Except String String := fun _ => .ok "user-1"

/-- verifyNever is a concrete verification oracle rejecting every token,
modelling id_token.verify_oauth2_token raising ValueError. -/
def verifyNever : String → Except String String :=
  fun _ => .error "Token verification failed"

/-- genFixed is a concrete model oracle that returns the given text for
every prompt. -/
def genFixed (t : String) : String → Except String String := fun _ => .ok t

/-- genRaise is a concrete model oracle that raises on every prompt. -/
def genRaise (msg : String) : String → Except String String := fun _ => .error msg

/-- jsonText observes the text of a JSON string value. -/
def jsonText : Json → String
  | .str s => s
  | _ => ""

/-- stripLeadingMarker is the operation the specification describes for
the stored summary: the first line with a single leading level-2 heading
marker removed.  It is written from the words of the claim, to be
compared with the replace-all behaviour of the source. -/
def stripLeadingMarker (s : String) : String :=
  if ("## ".data).isPrefixOf s.data then String.mk (s.data.drop 3) else s

theorem lookup_setScansA (xs : List (String × List Scan)) (uid : String) (l : List Scan) :
    (setScansA xs uid l).lookup uid = some l := by
  induction xs with
  | nil => simp [setScansA, List.lookup]
  | cons p rest ih =>
    obtain ⟨u, l0⟩ := p
    by_cases h : u = uid
    · subst h
      simp [setScansA, List.lookup]
    · have hb : (u == uid) = false := beq_eq_false_iff_ne.mpr h
      have hb2 : (uid == u) = false := beq_eq_false_iff_ne.mpr (Ne.symm h)
      simp [setScansA, List.lookup, hb, hb2, ih]

theorem scansOf_setScans (st : Store) (uid : String) (l : List Scan) :
    scansOf (setScans st uid l) uid = l := by
  simp [scansOf, setScans, lookup_setScansA]

theorem scansOf_addScan (st : Store) (uid : String) (r s : String) (d : Json) :
    scansOf (addScan st uid r s d) uid =
      scansOf st uid ++ [⟨st.nextId, st.clock, r, s, d⟩] := by
  simp [addScan, scansOf, setScans, lookup_setScansA]

/-- C8: every request to the analyze and history endpoints must carry a
bearer token that verifies as a Google ID token; when verification fails
the response is 401 with detail Invalid authentication credentials, the
store is untouched, the payload is never decoded and no outbound model
call is made. -/
theorem auth_failure_yields_401_before_work
    (verify gen : String → Except String String) (st : Store)
    (token payload emsg : String) (hv : verify token = .error emsg) :
    analyzeServer verify gen st token payload =
      ⟨.err 401 "Invalid authentication credentials", st, []⟩ ∧
    getHistory verify st token = .err 401 "Invalid authentication credentials" := by
  constructor
  · simp [analyzeServer, getCurrentUser, hv]
  · simp [getHistory, getCurrentUser, hv]

theorem auth_failure_yields_401_before_work_witness :
    analyzeServer verifyNever (genFixed "## R") emptyStore "tok" "e30=" =
      ⟨.err 401 "Invalid authentication credentials", emptyStore, []⟩ ∧
    getHistory verifyNever emptyStore "tok" =
      .err 401 "Invalid authentication credentials" :=
  auth_failure_yields_401_before_work verifyNever (genFixed "## R") emptyStore
    "tok" "e30=" "Token verification failed" rfl

/-- C7: on any exception of the remote model call get_ai_synthesis fails
with a ConnectionError wrapping the underlying failure text, and every
failure this function produces is of that one kind. -/
theorem getAiSynthesis_single_failure_kind
    (gen : String → Except String String) (d : Json) :
    (∀ e, gen (promptOf d) = .error e →
      getAiSynthesis gen d =
        .error (.connectionError ("Could not get analysis from AI service: " ++ e))) ∧
    (∀ err, getAiSynthesis gen d = .error err → ∃ m, err = .connectionError m) := by
  constructor
  · intro e he
    simp [getAiSynthesis, he]
  · intro err herr
    unfold getAiSynthesis at herr
    cases hg : gen (promptOf d) with
    | error e =>
      rw [hg] at herr
      simp only [Except.error.injEq] at herr
      exact ⟨_, herr.symm⟩
    | ok t =>
      simp only [hg] at herr
      cases hs : splitlines t with
      | nil =>
        simp only [hs, Except.error.injEq] at herr
        exact ⟨_, herr.symm⟩
      | cons l0 r =>
        simp only [hs] at herr
        exact absurd herr (by simp)

theorem getAiSynthesis_single_failure_kind_witness :
    getAiSynthesis (genRaise "boom") (Json.obj []) =
      .error (.connectionError ("Could not get analysis from AI service: " ++ "boom")) :=
  (getAiSynthesis_single_failure_kind (genRaise "boom") (Json.obj [])).1 "boom" rfl

/-- C1: a payload that is not valid base64, or whose decoded bytes are
not valid UTF-8 JSON, is answered with status 500 (the single catch-all
of the handler), with a detail that appends the exception text to a
fixed message, the store untouched and no model call made.  The claimed
400 never occurs: the handler has no 400 path. -/
theorem analyze_input_error_maps_to_500
    (verify gen : String → Except String String) (st : Store)
    (token payload uid : String) (e : PyErr)
    (hv : verify token = .ok uid) (he : decodeParse payload = .error e) :
    analyzeServer verify gen st token payload =
      ⟨.err 500 ("An unexpected error occurred: " ++ e.text), st, []⟩ := by
  simp [analyzeServer, getCurrentUser, hv, he]

theorem analyze_input_error_maps_to_500_witness :
    verifyAlways "tok" = .ok "user-1" ∧
    decodeParse "A" = .error (.binasciiError
      "Invalid base64-encoded string: number of data characters (1) cannot be 1 more than a multiple of 4") ∧
    analyzeServer verifyAlways (genFixed "## R") emptyStore "tok" "A" =
      ⟨.err 500 ("An unexpected error occurred: " ++ (PyErr.binasciiError
        "Invalid base64-encoded string: number of data characters (1) cannot be 1 more than a multiple of 4").text),
       emptyStore, []⟩ :=
  ⟨rfl, rfl,
    analyze_input_error_maps_to_500 verifyAlways (genFixed "## R") emptyStore
      "tok" "A" "user-1" _ rfl rfl⟩

/-- C1 counterexample: the payload A is not valid base64, yet the
response status is 500 and not the claimed 400. -/
theorem analyze_invalid_base64_not_400 :
    (analyzeServer verifyAlways (genFixed "## R") emptyStore "tok" "A").resp.status = 500 ∧
    (analyzeServer verifyAlways (genFixed "## R") emptyStore "tok" "A").resp.status ≠ 400 :=
  ⟨rfl, by decide⟩

/-- C2: when the model call raises, the handler answers 500 (not 503):
the ConnectionError of get_ai_synthesis is caught by the same catch-all
as every other exception, and the detail carries the failure text behind
the fixed unexpected-error and service texts. -/
theorem analyze_model_failure_maps_to_500_with_detail
    (verify gen : String → Except String String) (st : Store)
    (token payload uid : String) (sd : Json) (emsg : String)
    (hv : verify token = .ok uid) (hd : decodeParse payload = .ok sd)
    (hg : gen (promptOf sd) = .error emsg) :
    analyzeServer verify gen st token payload =
      ⟨.err 500 ("An unexpected error occurred: " ++
        ("Could not get analysis from AI service: " ++ emsg)), st, [promptOf sd]⟩ := by
  simp [analyzeServer, getCurrentUser, hv, hd, getAiSynthesis, hg, PyErr.text]

theorem analyze_model_failure_maps_to_500_with_detail_witness :
    verifyAlways "tok" = .ok "user-1" ∧
    decodeParse "e30=" = .ok (Json.obj []) ∧
    genRaise "quota exceeded" (promptOf (Json.obj [])) = .error "quota exceeded" ∧
    analyzeServer verifyAlways (genRaise "quota exceeded") emptyStore "tok" "e30=" =
      ⟨.err 500 ("An unexpected error occurred: " ++
        ("Could not get analysis from AI service: " ++ "quota exceeded")),
       emptyStore, [promptOf (Json.obj [])]⟩ :=
  ⟨rfl, rfl, rfl,
    analyze_model_failure_maps_to_500_with_detail verifyAlways (genRaise "quota exceeded")
      emptyStore "tok" "e30=" "user-1" (Json.obj []) "quota exceeded" rfl rfl rfl⟩

/-- C2 counterexample: with the model call raising, the status is 500
and not the claimed 503. -/
theorem analyze_model_failure_not_503 :
    (analyzeServer verifyAlways (genRaise "quota exceeded") emptyStore "tok" "e30=").resp.status = 500 ∧
    (analyzeServer verifyAlways (genRaise "quota exceeded") emptyStore "tok" "e30=").resp.status ≠ 503 :=
  ⟨rfl, by decide⟩

/-- C3: when the payload decodes and parses, the model call succeeds
with a text that has a first line, and the distro lookup on the parsed
data does not raise, the response is 200 with body status success and
the report exactly the text the model returned. -/
theorem analyze_success_returns_report_verbatim
    (verify gen : String → Except String String) (st : Store)
    (token payload uid : String) (sd : Json) (T line0 : String)
    (tail : List String) (dv : Json)
    (hv : verify token = .ok uid) (hd : decodeParse payload = .ok sd)
    (hg : gen (promptOf sd) = .ok T) (hl : splitlines T = line0 :: tail)
    (hdist : distroOf sd = .ok dv) :
    (analyzeServer verify gen st token payload).resp =
      .ok (Json.obj [("status", Json.str "success"), ("report", Json.str T)]) := by
  simp [analyzeServer, getCurrentUser, hv, hd, getAiSynthesis, hg, hl, hdist]

theorem analyze_success_returns_report_verbatim_witness :
    verifyAlways "tok" = .ok "user-1" ∧
    decodeParse "eyJjcHUiOiAxMH0=" = .ok (Json.obj [("cpu", Json.num "10")]) ∧
    genFixed "## Report\nAll good" (promptOf (Json.obj [("cpu", Json.num "10")])) =
      .ok "## Report\nAll good" ∧
    splitlines "## Report\nAll good" = ["## Report", "All good"] ∧
    distroOf (Json.obj [("cpu", Json.num "10")]) = .ok (Json.str "Unknown") ∧
    (analyzeServer verifyAlways (genFixed "## Report\nAll good") emptyStore
        "tok" "eyJjcHUiOiAxMH0=").resp =
      .ok (Json.obj [("status", Json.str "success"),
                     ("report", Json.str "## Report\nAll good")]) :=
  ⟨rfl, rfl, rfl, rfl, rfl,
    analyze_success_returns_report_verbatim verifyAlways (genFixed "## Report\nAll good")
      emptyStore "tok" "eyJjcHUiOiAxMH0=" "user-1" (Json.obj [("cpu", Json.num "10")])
      "## Report\nAll good" "## Report" ["All good"] (Json.str "Unknown")
      rfl rfl rfl rfl rfl⟩

/-- C3 counterexample: the empty JSON object is submitted correctly
encoded and the model call succeeds returning the empty text, yet the
response is 500, not 200: extracting the first line of the empty text
raises inside get_ai_synthesis. -/
theorem analyze_empty_model_text_not_200 :
    (analyzeServer verifyAlways (genFixed "") emptyStore "tok" "e30=").resp.status = 500 ∧
    (analyzeServer verifyAlways (genFixed "") emptyStore "tok" "e30=").resp.status ≠ 200 :=
  ⟨rfl, by decide⟩

/-- C4: on the success path the parsed server data enters the pipeline
in exactly two ways: serialized wholesale as pretty-printed JSON between
the two fixed halves of the prompt template, and through the individual
read of its os_info distro field stored in the scan record; the data
itself is never mutated, and response, store and outbound calls are
determined by these two projections together with the model text. -/
theorem analyze_data_used_only_wholesale_and_distro
    (verify gen : String → Except String String) (st : Store)
    (token payload uid : String) (sd : Json) (T line0 : String)
    (tail : List String) (dv : Json)
    (hv : verify token = .ok uid) (hd : decodeParse payload = .ok sd)
    (hg : gen (promptOf sd) = .ok T) (hl : splitlines T = line0 :: tail)
    (hdist : distroOf sd = .ok dv) :
    analyzeServer verify gen st token payload =
      ⟨.ok (Json.obj [("status", Json.str "success"), ("report", Json.str T)]),
       trimScans (addScan st uid T (pyReplace line0 "## " "") dv) uid,
       [promptPre ++ dumpsIndent2 sd ++ promptPost]⟩ := by
  simp only [promptOf] at hg
  simp [analyzeServer, getCurrentUser, hv, hd, getAiSynthesis, hg, hl, hdist, promptOf]

theorem analyze_data_used_only_wholesale_and_distro_witness :
    verifyAlways "tok" = .ok "user-1" ∧
    decodeParse "e30=" = .ok (Json.obj []) ∧
    genFixed "## R" (promptOf (Json.obj [])) = .ok "## R" ∧
    splitlines "## R" = ["## R"] ∧
    distroOf (Json.obj []) = .ok (Json.str "Unknown") ∧
    analyzeServer verifyAlways (genFixed "## R") emptyStore "tok" "e30=" =
      ⟨.ok (Json.obj [("status", Json.str "success"), ("report", Json.str "## R")]),
       trimScans (addScan emptyStore "user-1" "## R" (pyReplace "## R" "## " "")
         (Json.str "Unknown")) "user-1",
       [promptPre ++ dumpsIndent2 (Json.obj []) ++ promptPost]⟩ :=
  ⟨rfl, rfl, rfl, rfl, rfl,
    analyze_data_used_only_wholesale_and_distro verifyAlways (genFixed "## R")
      emptyStore "tok" "e30=" "user-1" (Json.obj []) "## R" "## R" []
      (Json.str "Unknown") rfl rfl rfl rfl rfl⟩

/-- C4 counterexample: two requests that differ only in the os_info
distro field of the decoded data receive identical responses from the
same model text, yet the scan records the service stores differ in the
distro drawn from that field: the field is individually read and used
beyond the wholesale serialization into the prompt. -/
theorem analyze_stored_distro_depends_on_field :
    (analyzeServer verifyAlways (genFixed "## S") emptyStore "tok"
        "eyJvc19pbmZvIjogeyJkaXN0cm8iOiAiVWJ1bnR1In19").resp =
      (analyzeServer verifyAlways (genFixed "## S") emptyStore "tok" "e30=").resp ∧
    ((scansOf (analyzeServer verifyAlways (genFixed "## S") emptyStore "tok"
        "eyJvc19pbmZvIjogeyJkaXN0cm8iOiAiVWJ1bnR1In19").store "user-1").map
      (fun s => jsonText s.distro)) = ["Ubuntu"] ∧
    ((scansOf (analyzeServer verifyAlways (genFixed "## S") emptyStore "tok"
        "e30=").store "user-1").map (fun s => jsonText s.distro)) = ["Unknown"] ∧
    ("Ubuntu" : String) ≠ "Unknown" :=
  ⟨rfl, rfl, rfl, by decide⟩

/-- C5: every request that reaches get_ai_synthesis makes exactly one
outbound call to the generative model, whatever the outcome of that call
and of the rest of the handler: the prompt trace is the one-element list
of the rendered prompt, so there are no retries. -/
theorem analyze_exactly_one_model_call
    (verify gen : String → Except String String) (st : Store)
    (token payload uid : String) (sd : Json)
    (hv : verify token = .ok uid) (hd : decodeParse payload = .ok sd) :
    (analyzeServer verify gen st token payload).prompts = [promptOf sd] := by
  simp only [analyzeServer, getCurrentUser, hv, hd]
  cases hg : getAiSynthesis gen sd with
  | error e => rfl
  | ok pr =>
    obtain ⟨r, s⟩ := pr
    cases hdist : distroOf sd with
    | error e => rfl
    | ok dv => rfl

theorem analyze_exactly_one_model_call_witness :
    verifyAlways "tok" = .ok "user-1" ∧
    decodeParse "e30=" = .ok (Json.obj []) ∧
    (analyzeServer verifyAlways (genRaise "down") emptyStore "tok" "e30=").prompts =
      [promptOf (Json.obj [])] :=
  ⟨rfl, rfl,
    analyze_exactly_one_model_call verifyAlways (genRaise "down") emptyStore
      "tok" "e30=" "user-1" (Json.obj []) rfl rfl⟩

/-- C6: handling a request whose pipeline succeeds is not
side-effect-free: it writes one scan record, carrying the report, the
summary and the distro value, into the Firestore collection of the user
(followed by the trim of older records), state later requests observe. -/
theorem analyze_success_persists_one_scan
    (verify gen : String → Except String String) (st : Store)
    (token payload uid : String) (sd : Json) (T line0 : String)
    (tail : List String) (dv : Json)
    (hv : verify token = .ok uid) (hd : decodeParse payload = .ok sd)
    (hg : gen (promptOf sd) = .ok T) (hl : splitlines T = line0 :: tail)
    (hdist : distroOf sd = .ok dv) :
    (analyzeServer verify gen st token payload).store =
      trimScans (addScan st uid T (pyReplace line0 "## " "") dv) uid ∧
    scansOf (addScan st uid T (pyReplace line0 "## " "") dv) uid =
      scansOf st uid ++ [⟨st.nextId, st.clock, T, pyReplace line0 "## " "", dv⟩] := by
  constructor
  · simp [analyzeServer, getCurrentUser, hv, hd, getAiSynthesis, hg, hl, hdist]
  · exact scansOf_addScan st uid T (pyReplace line0 "## " "") dv

theorem analyze_success_persists_one_scan_witness :
    (analyzeServer verifyAlways (genFixed "## R") emptyStore "tok" "e30=").store =
      trimScans (addScan emptyStore "user-1" "## R" (pyReplace "## R" "## " "")
        (Json.str "Unknown")) "user-1" ∧
    scansOf (addScan emptyStore "user-1" "## R" (pyReplace "## R" "## " "")
        (Json.str "Unknown")) "user-1" =
      scansOf emptyStore "user-1" ++
        [⟨emptyStore.nextId, emptyStore.clock, "## R", pyReplace "## R" "## " "",
          Json.str "Unknown"⟩] :=
  analyze_success_persists_one_scan verifyAlways (genFixed "## R") emptyStore
    "tok" "e30=" "user-1" (Json.obj []) "## R" "## R" [] (Json.str "Unknown")
    rfl rfl rfl rfl rfl

/-- C6 counterexample: the history of the user is empty before a
successful analyze request and holds one record after it: the handler
writes to the persistent store and a later history request observes the
change, so the service is not stateless between calls. -/
theorem analyze_changes_observable_history :
    (historyDocs emptyStore "user-1").length = 0 ∧
    (scansOf (analyzeServer verifyAlways (genFixed "## S") emptyStore "tok" "e30=").store
      "user-1").length = 1 ∧
    (historyDocs (analyzeServer verifyAlways (genFixed "## S") emptyStore "tok" "e30=").store
      "user-1").length = 1 ∧
    (1 : Nat) ≠ 0 :=
  ⟨rfl, rfl, rfl, by decide⟩

/-- C9: a model text with no line makes get_ai_synthesis raise (the
first-line indexing fails and is wrapped into the ConnectionError), the
request then yields an error response; every 200 response carries a
report whose text has at least one line, and the stored summary is that
first line with every occurrence of the level-2 heading marker removed
(not only a leading one). -/
theorem report_first_line_summary_spec
    (verify gen : String → Except String String) (st : Store)
    (token payload : String) :
    (∀ d, gen (promptOf d) = .ok "" →
      getAiSynthesis gen d =
        .error (.connectionError "Could not get analysis from AI service: list index out of range")) ∧
    (∀ uid sd, verify token = .ok uid → decodeParse payload = .ok sd →
      gen (promptOf sd) = .ok "" →
      (analyzeServer verify gen st token payload).resp.status = 500) ∧
    (∀ body, (analyzeServer verify gen st token payload).resp = .ok body →
      ∃ uid sd T line0 tail dv,
        verify token = .ok uid ∧ decodeParse payload = .ok sd ∧
        gen (promptOf sd) = .ok T ∧ splitlines T = line0 :: tail ∧
        distroOf sd = .ok dv ∧
        body = Json.obj [("status", Json.str "success"), ("report", Json.str T)] ∧
        (analyzeServer verify gen st token payload).store =
          trimScans (addScan st uid T (pyReplace line0 "## " "") dv) uid) := by
  have hempty : splitlines "" = [] := rfl
  refine ⟨?_, ?_, ?_⟩
  · intro d hg
    simp [getAiSynthesis, hg, hempty]
  · intro uid sd hv hd hg
    simp [analyzeServer, getCurrentUser, hv, hd, getAiSynthesis, hg, hempty, Resp.status]
  · intro body hbody
    cases hvt : verify token with
    | error m =>
      simp only [analyzeServer, getCurrentUser, hvt] at hbody
      simp at hbody
    | ok uid =>
      cases hd : decodeParse payload with
      | error e =>
        simp only [analyzeServer, getCurrentUser, hvt, hd] at hbody
        simp at hbody
      | ok sd =>
        cases hg : gen (promptOf sd) with
        | error m =>
          have hsyn : getAiSynthesis gen sd =
              .error (.connectionError ("Could not get analysis from AI service: " ++ m)) := by
            simp [getAiSynthesis, hg]
          simp only [analyzeServer, getCurrentUser, hvt, hd, hsyn] at hbody
          simp at hbody
        | ok t =>
          cases hl : splitlines t with
          | nil =>
            have hsyn : getAiSynthesis gen sd =
                .error (.connectionError "Could not get analysis from AI service: list index out of range") := by
              simp [getAiSynthesis, hg, hl]
            simp only [analyzeServer, getCurrentUser, hvt, hd, hsyn] at hbody
            simp at hbody
          | cons line0 tail =>
            have hsyn : getAiSynthesis gen sd = .ok (t, pyReplace line0 "## " "") := by
              simp [getAiSynthesis, hg, hl]
            cases hdist : distroOf sd with
            | error e =>
              simp only [analyzeServer, getCurrentUser, hvt, hd, hsyn, hdist] at hbody
              simp at hbody
            | ok dv =>
              simp only [analyzeServer, getCurrentUser, hvt, hd, hsyn, hdist] at hbody
              refine ⟨uid, sd, t, line0, tail, dv, rfl, rfl, hg, hl, hdist, ?_, ?_⟩
              · simp only [Resp.ok.injEq] at hbody
                exact hbody.symm
              · simp only [analyzeServer, getCurrentUser, hvt, hd, hsyn, hdist]

theorem report_first_line_summary_spec_witness :
    genFixed "" (promptOf (Json.obj [])) = .ok "" ∧
    getAiSynthesis (genFixed "") (Json.obj []) =
      .error (.connectionError "Could not get analysis from AI service: list index out of range") :=
  ⟨rfl,
    (report_first_line_summary_spec verifyAlways (genFixed "") emptyStore "tok" "e30=").1
      (Json.obj []) rfl⟩

/-- C9 counterexample: for a first line with a second heading marker
inside it the stored summary removes both occurrences, while the claim
asks for removal of a single leading marker only. -/
theorem summary_removes_all_marker_occurrences :
    getAiSynthesis (genFixed "## A ## B") (Json.obj []) = .ok ("## A ## B", "A B") ∧
    stripLeadingMarker "## A ## B" = "A ## B" ∧
    ("A B" : String) ≠ "A ## B" :=
  ⟨rfl, rfl, by decide⟩

/-- C10: for every authenticated user the history endpoint returns the
scan records of that user ordered by timestamp descending and limited to
five, each rendered as an object with exactly the id, timestamp, report
and summary fields. -/
theorem getHistory_returns_recent_five_sorted
    (verify : String → Except String String) (st : Store) (token uid : String)
    (hv : verify token = .ok uid) :
    getHistory verify st token = .ok (Json.arr ((historyDocs st uid).map scanEntry)) ∧
    (historyDocs st uid).length ≤ 5 ∧
    (historyDocs st uid).Pairwise (fun a b => b.timestamp ≤ a.timestamp) ∧
    ∀ s ∈ historyDocs st uid,
      scanEntry s = Json.obj [("id", Json.str (docIdStr s.docId)),
        ("timestamp", Json.str (isoformat s.timestamp)),
        ("report", Json.str s.report),
        ("summary", Json.str s.summary)] := by
  refine ⟨?_, ?_, ?_, ?_⟩
  · simp [getHistory, getCurrentUser, hv]
  · simp [historyDocs]
  · have hs : List.Sorted scanGE (List.insertionSort scanGE (scansOf st uid)) :=
      List.sorted_insertionSort scanGE (scansOf st uid)
    exact List.Pairwise.sublist (List.take_sublist 5 _) hs
  · intro s _
    rfl

theorem getHistory_returns_recent_five_sorted_witness :
    getHistory verifyAlways emptyStore "tok" =
      .ok (Json.arr ((historyDocs emptyStore "user-1").map scanEntry)) ∧
    (historyDocs emptyStore "user-1").length ≤ 5 ∧
    (historyDocs emptyStore "user-1").Pairwise (fun a b => b.timestamp ≤ a.timestamp) ∧
    ∀ s ∈ historyDocs emptyStore "user-1",
      scanEntry s = Json.obj [("id", Json.str (docIdStr s.docId)),
        ("timestamp", Json.str (isoformat s.timestamp)),
        ("report", Json.str s.report),
        ("summary", Json.str s.summary)] :=
  getHistory_returns_recent_five_sorted verifyAlways emptyStore "tok" "user-1" rfl
